import Mathlib

/-!
Shallow embedding of the upload-normalization pipeline of the Medical
Imaging Agent (`src/app.py`).

Conventions of the embedding:
* numpy / Python arithmetic on pixel samples is carried out in `ℤ` and,
  for the float-valued rescale expression, in `ℚ` (the rescale quotient
  and the resize quotient are exactly representable decisions at the
  points the theorems evaluate them, so the `ℚ` model agrees with IEEE
  double there);
* Python `int(x)` and numpy `.astype(np.uint8)` truncate toward zero;
  this is `pytrunc` below (on the nonnegative values produced by the
  pipeline, truncation toward zero coincides with the floor);
* Python exceptions are modelled with `Except String`;
* the filesystem effects of `process_uploaded_file` (DICOM branch) and of
  the analysis container are modelled as explicit state machines over the
  one temporary path each of them touches, with the success of the
  primary step and of `os.remove` as Boolean environment parameters.
-/

namespace MedicalImaging

/-- Python `int()` / numpy float-to-integer cast: truncation toward zero
of an exact rational value (`q.num.tdiv q.den`, T-division). -/
def pytrunc (q : ℚ) : ℤ :=
  Int.tdiv q.num (q.den : ℤ)

/-- numpy `ndarray.max()` on the flattened pixel matrix (fold of `max`);
the `[]` case is junk (numpy raises on an empty array). -/
def listMax : List ℤ → ℤ
  | [] => 0
  | x :: xs => xs.foldl max x

/-- numpy `ndarray.min()` on the flattened pixel matrix. -/
def listMin : List ℤ → ℤ
  | [] => 0
  | x :: xs => xs.foldl min x

/-- One sample of the `app.py` line 32-33 rescale
`((pixel_array - pixel_array.min()) / (pixel_array.max() - pixel_array.min()) * 255).astype(np.uint8)`
with `lo = min`, `hi = max`. The value is in `[0, 255]` whenever
`lo ≤ x ≤ hi` and `lo < hi`, so the `uint8` cast neither wraps nor
clips there and is just `pytrunc`. -/
def rescaleSample (lo hi x : ℤ) : ℤ :=
  pytrunc ((((x : ℚ) - (lo : ℚ)) / ((hi : ℚ) - (lo : ℚ))) * 255)

/-- numpy dtypes a DICOM pixel matrix is delivered in (`ds.pixel_array`). -/
inductive Dtype
  | u8
  | u16
  | i32
deriving DecidableEq, Repr

/-- PIL color modes relevant to the pipeline. -/
inductive Mode
  | L
  | RGB
  | P
  | RGBA
  | CMYK
  | I16
  | I32
deriving DecidableEq, Repr

/-- Bits per channel of a PIL mode (`L`/`RGB`/`P`/`RGBA`/`CMYK` are
8-bit; `I;16` is 16-bit; `I` is 32-bit). -/
def bitsPerChannel : Mode → ℕ
  | .I16 => 16
  | .I32 => 32
  | _ => 8

/-- Mode produced by `PIL.Image.fromarray` on a 2-D array of the given
dtype: `uint8 ↦ L`, `uint16 ↦ I;16`, `int32 ↦ I`. -/
def fromarrayMode : Dtype → Mode
  | .u8 => .L
  | .u16 => .I16
  | .i32 => .I32

/-- The in-memory raster the pipeline passes around (PIL image). The
pixel list is only tracked on the DICOM path; the raster branches keep
`[]` because their pixel data is irrelevant to every claim. -/
structure PILImage where
  mode : Mode
  width : ℕ
  height : ℕ
  pixels : List ℤ
deriving DecidableEq, Repr

/-- `process_dicom` (app.py lines 21-38), value level: read the pixel
matrix, rescale iff `pixel_array.max() > 255`, build a PIL image with
`Image.fromarray`. `w`, `h` are the matrix dimensions, `M` its samples
in row-major order. -/
def process_dicom (dt : Dtype) (w h : ℕ) (M : List ℤ) : PILImage :=
  if 255 < listMax M then
    { mode := .L, width := w, height := h,
      pixels := M.map (rescaleSample (listMin M) (listMax M)) }
  else
    { mode := fromarrayMode dt, width := w, height := h, pixels := M }

/-- Mode coercion of the TIFF and generic branches (app.py lines 47-48
and 79-80): `if image.mode not in ("RGB", "L"): image = image.convert("RGB")`. -/
def convertIfNeeded (m : Mode) : Mode :=
  if m = .RGB ∨ m = .L then m else .RGB

/-- Python `str.lower()` on the file name (ASCII; `Char.toLower` agrees
with Python on ASCII names). -/
def pyLower (s : String) : List Char :=
  s.data.map Char.toLower

/-- Python `str.split(".")`: split a character list at every dot,
keeping empty groups. `splitDot` never returns `[]`. -/
def splitDot : List Char → List (List Char)
  | [] => [[]]
  | c :: cs =>
    match splitDot cs with
    | [] => [[]]
    | g :: gs => if c = '.' then [] :: g :: gs else (c :: g) :: gs

/-- `uploaded_file.name.lower().split(".")[-1]` (app.py line 58). -/
def fileExtension (name : String) : List Char :=
  (splitDot (pyLower name)).getLastD []

/-- The three dispatch targets of `process_uploaded_file`. -/
inductive Branch
  | dicom
  | tiff
  | generic
deriving DecidableEq, Repr

/-- Extension dispatch of `process_uploaded_file` (app.py lines 60-76):
`dcm`/`dicom`, then `tif`/`tiff`, then an open-ended `else` branch for
every other extension. -/
def dispatch (name : String) : Branch :=
  let ext := fileExtension name
  if ext = "dcm".data ∨ ext = "dicom".data then Branch.dicom
  else if ext = "tif".data ∨ ext = "tiff".data then Branch.tiff
  else Branch.generic

/-- What the uploaded byte stream actually is, as far as the decoders
can tell: a PIL-decodable raster (with its decoded mode and size), a
pydicom-decodable record, or bytes neither library accepts. -/
inductive FileContent
  | dicom (dt : Dtype) (w h : ℕ) (M : List ℤ)
  | raster (m : Mode) (w h : ℕ)
  | garbage
deriving DecidableEq, Repr

/-- `process_uploaded_file` (app.py lines 55-84), value level, with the
temporary file of the DICOM branch assumed written and removed cleanly
(the file lifecycle is `dicomTempFileRun` below). Decoder failures are
wrapped by the outer `except` of lines 83-84. -/
def process_uploaded_file (name : String) (c : FileContent) : Except String PILImage :=
  match dispatch name with
  | Branch.dicom =>
    match c with
    | FileContent.dicom dt w h M => Except.ok (process_dicom dt w h M)
    | _ => Except.error "Error processing uploaded file: Error processing DICOM file"
  | Branch.tiff =>
    match c with
    | FileContent.raster m w h =>
      Except.ok { mode := convertIfNeeded m, width := w, height := h, pixels := [] }
    | _ => Except.error "Error processing uploaded file: Error processing TIFF file"
  | Branch.generic =>
    match c with
    | FileContent.raster m w h =>
      Except.ok { mode := convertIfNeeded m, width := w, height := h, pixels := [] }
    | _ => Except.error "Error processing uploaded file: cannot identify image file"

/-- Resizing step (app.py lines 209-213):
`aspect = width / height` (raises `ZeroDivisionError` when `height == 0`),
`new_width = 500`, `new_height = int(new_width / aspect)` (raises when
`aspect == 0.0`, i.e. `width == 0`), then
`image.resize((new_width, new_height))`, which raises Pillow's
`ValueError` (`height and width must be > 0`) whenever a target
dimension is below 1 — here exactly when the truncated height is 0,
i.e. `w > 500 * h`. -/
def resizeStep (w h : ℕ) : Except String (ℕ × ℤ) :=
  if h = 0 then Except.error "ZeroDivisionError: division by zero"
  else
    let aspect : ℚ := (w : ℚ) / (h : ℚ)
    if aspect = 0 then Except.error "ZeroDivisionError: float division by zero"
    else
      let newHeight := pytrunc ((500 : ℚ) / aspect)
      if newHeight < 1 then Except.error "ValueError: height and width must be > 0"
      else Except.ok (500, newHeight)

/-- File lifecycle of the DICOM branch of `process_uploaded_file`
(app.py lines 60-70): write `temp_dicom_file.dcm`, decode inside `try`,
delete in `finally` with no handler around `os.remove` — a remove
failure propagates out of the `finally` and is re-wrapped by lines
83-84. Returns (operation result, does the temp file still exist). -/
def dicomTempFileRun (decodeOk removeOk : Bool) : Except String Unit × Bool :=
  let tempExists := true
  let result : Except String Unit :=
    if decodeOk then Except.ok ()
    else Except.error "Error processing uploaded file: Error processing DICOM file"
  if tempExists then
    if removeOk then (result, false)
    else (Except.error "Error processing uploaded file: PermissionError", true)
  else (result, tempExists)

/-- What the analysis container ends up rendering. -/
inductive DisplayMsg
  | results
  | analysisError
  | saveError
  | imageNoneError
  | noAgentError
  | nothing
deriving DecidableEq, Repr

/-- Post-state of one run of the analysis container. -/
structure AnalysisOutcome where
  displayed : DisplayMsg
  warned : Bool
  tempExists : Bool
  analyzeClicked : Bool
deriving DecidableEq, Repr

/-- The analysis container (app.py lines 230-266), one script run with
`analyze_clicked = clicked`. Environment: is the agent configured, is
`resized_image` non-None, does `resized_image.save` succeed (a save
failure still creates the file before the encoder raises), does
`medical_agent.run` succeed, does `os.remove` succeed. The model-call
`except` (252-253) swallows its error; the save `except` (256-257)
swallows its error; the `finally` (258-263) wraps `os.remove` in
`try/except` and downgrades a failure to a warning; line 266 resets
`analyze_clicked` on every path of the configured-agent branch. -/
def analysisContainer (clicked agentPresent resizedSome saveOk modelOk removeOk : Bool) :
    AnalysisOutcome :=
  if clicked = false then
    { displayed := DisplayMsg.nothing, warned := false,
      tempExists := false, analyzeClicked := false }
  else if agentPresent = false then
    { displayed := DisplayMsg.noAgentError, warned := false,
      tempExists := false, analyzeClicked := true }
  else
    let bodyResult : DisplayMsg × Bool :=
      if resizedSome then
        if saveOk then
          (if modelOk then DisplayMsg.results else DisplayMsg.analysisError, true)
        else (DisplayMsg.saveError, true)
      else (DisplayMsg.imageNoneError, false)
    let cleanup : Bool × Bool :=
      if bodyResult.2 then
        if removeOk then (false, false) else (true, true)
      else (false, false)
    { displayed := bodyResult.1, warned := cleanup.1,
      tempExists := cleanup.2, analyzeClicked := false }

-- evaluation checks of the embedding on concrete inputs
example : fileExtension "scan.DCM" = "dcm".data := by decide
example : dispatch "scan.bmp" = Branch.generic := by decide
example : dispatch "a.b.tiff" = Branch.tiff := by decide
example : fileExtension "noext" = "noext".data := by decide
example : listMax [3, 7, 2] = 7 := by decide
example : listMin [3, 7, 2] = 2 := by decide

/-! ### Helper lemmas -/

theorem init_le_foldl_max (l : List ℤ) (a : ℤ) : a ≤ l.foldl max a := by
  induction l generalizing a with
  | nil => exact le_refl a
  | cons y ys ih =>
    exact le_trans (le_max_left a y) (ih (max a y))

theorem mem_le_foldl_max (l : List ℤ) (a x : ℤ) (hx : x ∈ l) : x ≤ l.foldl max a := by
  induction l generalizing a with
  | nil => cases hx
  | cons y ys ih =>
    rcases List.mem_cons.mp hx with h | h
    · subst h
      exact le_trans (le_max_right a x) (init_le_foldl_max ys (max a x))
    · exact ih (max a y) h

theorem le_listMax (l : List ℤ) (x : ℤ) (hx : x ∈ l) : x ≤ listMax l := by
  cases l with
  | nil => cases hx
  | cons y ys =>
    rcases List.mem_cons.mp hx with h | h
    · subst h
      exact init_le_foldl_max ys x
    · exact mem_le_foldl_max ys y x h

theorem foldl_min_le_init (l : List ℤ) (a : ℤ) : l.foldl min a ≤ a := by
  induction l generalizing a with
  | nil => exact le_refl a
  | cons y ys ih =>
    exact le_trans (ih (min a y)) (min_le_left a y)

theorem foldl_min_le_mem (l : List ℤ) (a x : ℤ) (hx : x ∈ l) : l.foldl min a ≤ x := by
  induction l generalizing a with
  | nil => cases hx
  | cons y ys ih =>
    rcases List.mem_cons.mp hx with h | h
    · subst h
      exact le_trans (foldl_min_le_init ys (min a x)) (min_le_right a x)
    · exact ih (min a y) h

theorem listMin_le (l : List ℤ) (x : ℤ) (hx : x ∈ l) : listMin l ≤ x := by
  cases l with
  | nil => cases hx
  | cons y ys =>
    rcases List.mem_cons.mp hx with h | h
    · subst h
      exact foldl_min_le_init ys x
    · exact foldl_min_le_mem ys y x h

/-- On nonnegative rationals, Python truncation toward zero is the floor. -/
theorem pytrunc_eq_floor (q : ℚ) (h : 0 ≤ q) : pytrunc q = ⌊q⌋ := by
  unfold pytrunc
  rw [Int.tdiv_eq_ediv (Rat.num_nonneg.mpr h) (Int.ofNat_nonneg q.den)]
  exact Rat.floor_def.symm

theorem rescaleSample_nonneg (lo hi x : ℤ) (hlo : lo ≤ x) (hlt : lo < hi) :
    0 ≤ rescaleSample lo hi x := by
  unfold rescaleSample
  have hd : (0 : ℚ) < (hi : ℚ) - (lo : ℚ) := by
    rw [sub_pos]
    exact_mod_cast hlt
  have hn : (0 : ℚ) ≤ (x : ℚ) - (lo : ℚ) := by
    rw [sub_nonneg]
    exact_mod_cast hlo
  have hq : (0 : ℚ) ≤ ((x : ℚ) - (lo : ℚ)) / ((hi : ℚ) - (lo : ℚ)) * 255 :=
    mul_nonneg (div_nonneg hn (le_of_lt hd)) (by norm_num)
  rw [pytrunc_eq_floor _ hq]
  exact Int.floor_nonneg.mpr hq

theorem rescaleSample_le (lo hi x : ℤ) (hx : x ≤ hi) (hlo : lo ≤ x) (hlt : lo < hi) :
    rescaleSample lo hi x ≤ 255 := by
  unfold rescaleSample
  have hd : (0 : ℚ) < (hi : ℚ) - (lo : ℚ) := by
    rw [sub_pos]
    exact_mod_cast hlt
  have hn : (0 : ℚ) ≤ (x : ℚ) - (lo : ℚ) := by
    rw [sub_nonneg]
    exact_mod_cast hlo
  have hle : ((x : ℚ) - (lo : ℚ)) / ((hi : ℚ) - (lo : ℚ)) ≤ 1 := by
    rw [div_le_one hd]
    have : (x : ℚ) ≤ (hi : ℚ) := by exact_mod_cast hx
    linarith
  have hq : (0 : ℚ) ≤ ((x : ℚ) - (lo : ℚ)) / ((hi : ℚ) - (lo : ℚ)) * 255 :=
    mul_nonneg (div_nonneg hn (le_of_lt hd)) (by norm_num)
  rw [pytrunc_eq_floor _ hq]
  have : ((x : ℚ) - (lo : ℚ)) / ((hi : ℚ) - (lo : ℚ)) * 255 ≤ 255 := by nlinarith
  calc ⌊((x : ℚ) - (lo : ℚ)) / ((hi : ℚ) - (lo : ℚ)) * 255⌋
      ≤ ⌊(255 : ℚ)⌋ := Int.floor_mono this
    _ = 255 := by norm_num

theorem rescaleSample_at_max (lo hi : ℤ) (hlt : lo < hi) :
    rescaleSample lo hi hi = 255 := by
  unfold rescaleSample
  have hd : ((hi : ℚ) - (lo : ℚ)) ≠ 0 := by
    have : (0 : ℚ) < (hi : ℚ) - (lo : ℚ) := by
      rw [sub_pos]
      exact_mod_cast hlt
    exact ne_of_gt this
  rw [div_self hd, one_mul]
  rw [pytrunc_eq_floor _ (by norm_num)]
  norm_num

theorem rescaleSample_at_min (lo hi : ℤ) :
    rescaleSample lo hi lo = 0 := by
  unfold rescaleSample
  rw [sub_self, zero_div, zero_mul]
  rw [pytrunc_eq_floor _ (le_refl 0)]
  norm_num

/-- The resize arithmetic on a non-degenerate image: the output width is
the constant 500 and the truncated height is the floor of the exact
quotient `500 * h / w` whenever that floor is at least 1
(`w ≤ 500 * h`); otherwise `image.resize` raises Pillow's
`ValueError` on the zero target height. -/
theorem resizeStep_pos (w h : ℕ) (hw : 0 < w) (hh : 0 < h) :
    resizeStep w h =
      if w ≤ 500 * h then Except.ok (500, ⌊(500 * (h : ℚ)) / (w : ℚ)⌋)
      else Except.error "ValueError: height and width must be > 0" := by
  unfold resizeStep
  have hh0 : h ≠ 0 := Nat.pos_iff_ne_zero.mp hh
  have hwq : (0 : ℚ) < (w : ℚ) := by exact_mod_cast hw
  have hhq : (0 : ℚ) < (h : ℚ) := by exact_mod_cast hh
  have haspect : (w : ℚ) / (h : ℚ) ≠ 0 :=
    div_ne_zero (ne_of_gt hwq) (ne_of_gt hhq)
  rw [if_neg hh0, if_neg haspect]
  have heq : (500 : ℚ) / ((w : ℚ) / (h : ℚ)) = 500 * (h : ℚ) / (w : ℚ) := by
    field_simp
  rw [heq]
  have hq : (0 : ℚ) ≤ 500 * (h : ℚ) / (w : ℚ) := by positivity
  rw [pytrunc_eq_floor _ hq]
  by_cases hc : w ≤ 500 * h
  · rw [if_pos hc]
    have h1 : (1 : ℚ) ≤ 500 * (h : ℚ) / (w : ℚ) := by
      rw [le_div_iff₀ hwq, one_mul]
      exact_mod_cast hc
    have hge : (1 : ℤ) ≤ ⌊500 * (h : ℚ) / (w : ℚ)⌋ :=
      Int.le_floor.mpr (by exact_mod_cast h1)
    rw [if_neg (not_lt.mpr hge)]
  · rw [if_neg hc]
    have h1 : 500 * (h : ℚ) / (w : ℚ) < 1 := by
      rw [div_lt_one hwq]
      exact_mod_cast not_le.mp hc
    have hlt : ⌊500 * (h : ℚ) / (w : ℚ)⌋ < 1 :=
      Int.floor_lt.mpr (by exact_mod_cast h1)
    rw [if_pos hlt]

/-! ### Claim theorems -/

/-- C1 counterexample: the claim quantifies over all pixel matrices with
`max(M) > 255`, explicitly including the degenerate case
`max(M) == min(M)`. At `M = [256]` the single sample is both the
original maximum and the original minimum, so the claim demands that the
rescaled sample equal both 255 and 0 at once, which is absurd (and the
source divides by zero there). -/
theorem c1_counterexample :
    ¬ (∀ M : List ℤ, 255 < listMax M →
        ∀ x ∈ M,
          (x = listMax M → rescaleSample (listMin M) (listMax M) x = 255) ∧
          (x = listMin M → rescaleSample (listMin M) (listMax M) x = 0)) := by
  intro hclaim
  have h := hclaim [256] (by decide) 256 (by decide)
  have h255 := h.1 (by decide)
  have h0 := h.2 (by decide)
  rw [h255] at h0
  exact absurd h0 (by decide)

/-- C1 (amended): for every DICOM pixel matrix with `max(M) > 255` and
`min(M) < max(M)`, `process_dicom` maps every sample through the
full-range rescale, every rescaled sample lies in `[0, 255]`, samples
equal to the original maximum map to exactly 255 and samples equal to
the original minimum map to exactly 0. The degenerate case
`max(M) == min(M) > 255` is excluded: there the source divides by
zero. -/
theorem c1_dicom_rescale_range_and_endpoints (dt : Dtype) (w h : ℕ) (M : List ℤ)
    (hmax : 255 < listMax M) (hnd : listMin M < listMax M) :
    (process_dicom dt w h M).pixels = M.map (rescaleSample (listMin M) (listMax M)) ∧
    ∀ x ∈ M,
      (0 ≤ rescaleSample (listMin M) (listMax M) x ∧
        rescaleSample (listMin M) (listMax M) x ≤ 255) ∧
      (x = listMax M → rescaleSample (listMin M) (listMax M) x = 255) ∧
      (x = listMin M → rescaleSample (listMin M) (listMax M) x = 0) := by
  constructor
  · unfold process_dicom
    rw [if_pos hmax]
  · intro x hx
    have hlo := listMin_le M x hx
    have hhi := le_listMax M x hx
    refine ⟨⟨rescaleSample_nonneg _ _ _ hlo hnd, rescaleSample_le _ _ _ hhi hlo hnd⟩, ?_, ?_⟩
    · intro hx2
      rw [hx2]
      exact rescaleSample_at_max _ _ hnd
    · intro hx2
      rw [hx2]
      exact rescaleSample_at_min _ _

/-- C1 witness: the spec scenario `M = [0, 4095]` — the rescale branch
is taken, the maximum sample maps to 255 and the minimum to 0. -/
theorem c1_witness :
    255 < listMax [(0 : ℤ), 4095] ∧ listMin [(0 : ℤ), 4095] < listMax [(0 : ℤ), 4095] ∧
    rescaleSample (listMin [(0 : ℤ), 4095]) (listMax [(0 : ℤ), 4095]) 4095 = 255 := by
  refine ⟨by decide, by decide, ?_⟩
  exact ((c1_dicom_rescale_range_and_endpoints Dtype.u16 2 1 [0, 4095]
    (by decide) (by decide)).2 4095 (by simp)).2.1 rfl

/-- C2 counterexample: at a 3x1 image the code truncates
`int(500 / 3.0) = 166`, while the claimed rounded quotient is
`round(500 / (3 / 1)) = 167`. -/
theorem c2_counterexample :
    resizeStep 3 1 = Except.ok (500, 166) ∧
    round ((500 : ℚ) / ((3 : ℚ) / (1 : ℚ))) = 167 := by
  constructor
  · rw [resizeStep_pos 3 1 (by norm_num) (by norm_num),
      if_pos (by norm_num : (3 : ℕ) ≤ 500 * 1)]
    norm_num
  · norm_num [round_eq]

/-- C2 (amended): for every decoded image with `w > 0` and `h > 0`,
when the truncated height is at least one unit (`w ≤ 500 * h`) the
resizing step produces width exactly 500 (so never wider than 500) and
height `int(500 / (w / h))`, the TRUNCATED quotient `⌊500 * h / w⌋` —
not the rounded one; when the truncated height is 0 (`w > 500 * h`)
`image.resize` raises Pillow's `ValueError` and no image is produced. -/
theorem c2_resize_width_500_height_truncated (w h : ℕ) (hw : 0 < w) (hh : 0 < h) :
    (w ≤ 500 * h → resizeStep w h = Except.ok (500, ⌊(500 * (h : ℚ)) / (w : ℚ)⌋)) ∧
    (500 * h < w →
      resizeStep w h = Except.error "ValueError: height and width must be > 0") := by
  constructor
  · intro hc
    rw [resizeStep_pos w h hw hh, if_pos hc]
  · intro hc
    rw [resizeStep_pos w h hw hh, if_neg (not_le.mpr hc)]

/-- C2 witness: a 4x2 image resizes to 500x250. -/
theorem c2_witness :
    0 < 4 ∧ 0 < 2 ∧ (4 : ℕ) ≤ 500 * 2 ∧
    resizeStep 4 2 = Except.ok (500, ⌊(500 * (2 : ℚ)) / (4 : ℚ)⌋) ∧
    ⌊(500 * (2 : ℚ)) / (4 : ℚ)⌋ = 250 :=
  ⟨by norm_num, by norm_num, by norm_num,
    (c2_resize_width_500_height_truncated 4 2 (by norm_num) (by norm_num)).1 (by norm_num),
    by norm_num⟩

/-- C6: every DICOM pixel matrix with `max(M) <= 255` is emitted on the
identity path — no rescale, no clipping, the pixel list of the produced
image is exactly the input matrix (and the mode is whatever
`Image.fromarray` gives the unchanged dtype). -/
theorem c6_dicom_low_range_identity (dt : Dtype) (w h : ℕ) (M : List ℤ)
    (hmax : listMax M ≤ 255) :
    process_dicom dt w h M =
      { mode := fromarrayMode dt, width := w, height := h, pixels := M } := by
  unfold process_dicom
  rw [if_neg (not_lt.mpr hmax)]

/-- C6 witness: a `uint8` matrix containing 0, 17 and 255 passes through
unchanged with mode `L`. -/
theorem c6_witness :
    listMax [(0 : ℤ), 17, 255] ≤ 255 ∧
    process_dicom Dtype.u8 3 1 [0, 17, 255] =
      { mode := Mode.L, width := 3, height := 1, pixels := [0, 17, 255] } :=
  ⟨by decide, c6_dicom_low_range_identity Dtype.u8 3 1 [0, 17, 255] (by decide)⟩

/-- C9: on a decoded image of height 0 the resizing step fails with the
(defined, catchable) `ZeroDivisionError` raised at the aspect-ratio
division, which the surrounding `except` turns into a user-facing error
message — it does not produce a raster. -/
theorem c9_zero_height_fails (w : ℕ) :
    resizeStep w 0 = Except.error "ZeroDivisionError: division by zero" := by
  unfold resizeStep
  rw [if_pos rfl]

/-- C10 counterexample: a successfully decoded 501x1 image produces no
resized output at all — the truncated height is 0 and `image.resize`
raises Pillow's `ValueError` — so the resize does not yield a 500-wide
image for every successfully decoded input. -/
theorem c10_counterexample :
    resizeStep 501 1 = Except.error "ValueError: height and width must be > 0" := by
  rw [resizeStep_pos 501 1 (by norm_num) (by norm_num),
    if_neg (by norm_num : ¬ ((501 : ℕ) ≤ 500 * 1))]

/-- C10 (amended): whenever the resizing step produces an output its
width is exactly 500 — the bound is attained, never merely an upper
bound — and every image narrower than 500 units (with `w > 0`,
`h > 0`) does produce one, upscaled to width exactly 500; but
sufficiently wide inputs (`w > 500 * h`) produce no output (Pillow
`ValueError`, see the counterexample). -/
theorem c10_width_exactly_500 (w h : ℕ) (hw : 0 < w) (hh : 0 < h) :
    (∀ p : ℕ × ℤ, resizeStep w h = Except.ok p → p.1 = 500) ∧
    (w < 500 → ∃ nh : ℤ, resizeStep w h = Except.ok (500, nh)) := by
  constructor
  · intro p hp
    rw [resizeStep_pos w h hw hh] at hp
    by_cases hc : w ≤ 500 * h
    · rw [if_pos hc] at hp
      cases hp
      rfl
    · rw [if_neg hc] at hp
      exact Except.noConfusion hp
  · intro hw500
    refine ⟨⌊(500 * (h : ℚ)) / (w : ℚ)⌋, ?_⟩
    rw [resizeStep_pos w h hw hh, if_pos (by omega)]

/-- C10 witness: a 100x50 image — narrower than 500 — is upscaled to
width exactly 500. -/
theorem c10_witness :
    0 < 100 ∧ (100 : ℕ) < 500 ∧ 0 < 50 ∧
    ∃ nh : ℤ, resizeStep 100 50 = Except.ok (500, nh) :=
  ⟨by norm_num, by norm_num, by norm_num,
    (c10_width_exactly_500 100 50 (by norm_num) (by norm_num)).2 (by norm_num)⟩

/-- C3: when `os.remove` itself succeeds (deletion failure is the
subject of C7), the temporary file of the DICOM decode does not exist
after `process_uploaded_file` returns — on decode success and on decode
failure — and the temporary image of the analysis container does not
exist after the run — on success, on model-call failure, on save
failure and on the image-is-None path. -/
theorem c3_temp_files_removed_on_every_exit :
    (∀ decodeOk : Bool, (dicomTempFileRun decodeOk true).2 = false) ∧
    (∀ resizedSome saveOk modelOk : Bool,
      (analysisContainer true true resizedSome saveOk modelOk true).tempExists = false) := by
  decide

/-- C7 counterexample: on the DICOM decode path the `finally` has no
handler around `os.remove` (app.py lines 68-70), so with a successful
decode and a failing removal the operation result IS the propagated
removal error (and the file survives) — the deletion failure is not
downgraded to a warning there. -/
theorem c7_counterexample :
    dicomTempFileRun true false =
      (Except.error "Error processing uploaded file: PermissionError", true) := rfl

/-- C7 (amended): only the analysis path downgrades a temporary-file
deletion failure to a warning: whatever the primary outcome, the
displayed result of the analysis container is the same whether
`os.remove` fails or succeeds, and whenever the temporary image was
created (`resizedSome`) a failing removal emits the warning. On the
DICOM decode path a deletion failure propagates as the operation result
(see the counterexample). -/
theorem c7_analysis_downgrades_removal_failure :
    ∀ resizedSome saveOk modelOk : Bool,
      (analysisContainer true true resizedSome saveOk modelOk false).displayed
        = (analysisContainer true true resizedSome saveOk modelOk true).displayed ∧
      (analysisContainer true true resizedSome saveOk modelOk false).warned = resizedSome := by
  decide

/-- C8: with the agent configured, one click-armed run of the analysis
container resets `analyze_clicked` to false on every outcome — success,
model-call failure, save failure, missing image, and even failing
temp-file removal — so a second analysis cannot start without a new
click. -/
theorem c8_analyze_flag_reset_after_one_completion :
    ∀ resizedSome saveOk modelOk removeOk : Bool,
      (analysisContainer true true resizedSome saveOk modelOk removeOk).analyzeClicked
        = false := by
  decide

/-- C4 counterexample: a DICOM record decoded as a `uint16` matrix whose
maximum does not exceed 255 takes the identity path with its dtype
preserved, so `Image.fromarray` yields mode `I;16` — neither `L` nor
`RGB` — at 16 bits per channel. -/
theorem c4_counterexample :
    process_uploaded_file "scan.dcm" (FileContent.dicom Dtype.u16 1 1 [100]) =
      Except.ok { mode := Mode.I16, width := 1, height := 1, pixels := [100] } ∧
    ¬ (Mode.I16 = Mode.L ∨ Mode.I16 = Mode.RGB) ∧ bitsPerChannel Mode.I16 ≠ 8 :=
  ⟨rfl, by decide⟩

/-- C4 (amended): every successful normalization whose DICOM input (if
any) either has the 8-bit dtype or triggers the rescale (`max > 255`)
returns an image whose mode is `L` or `RGB` at 8 bits per channel; the
TIFF and generic branches always satisfy this, but the DICOM identity
path with a wider dtype does not (see the counterexample). -/
theorem c4_mode_invariant_amended (name : String) (c : FileContent) (img : PILImage)
    (hok : process_uploaded_file name c = Except.ok img)
    (hdicom : ∀ dt w h M, c = FileContent.dicom dt w h M → dt = Dtype.u8 ∨ 255 < listMax M) :
    (img.mode = Mode.L ∨ img.mode = Mode.RGB) ∧ bitsPerChannel img.mode = 8 := by
  unfold process_uploaded_file at hok
  cases hbr : dispatch name <;> rw [hbr] at hok <;> cases c <;> simp at hok
  case dicom.dicom dt w h M =>
    subst hok
    unfold process_dicom
    by_cases hm : 255 < listMax M
    · rw [if_pos hm]
      exact ⟨Or.inl rfl, rfl⟩
    · rw [if_neg hm]
      rcases hdicom dt w h M rfl with h8 | hres
      · subst h8
        exact ⟨Or.inl rfl, rfl⟩
      · exact absurd hres hm
  case tiff.raster m w h =>
    subst hok
    unfold convertIfNeeded
    by_cases hm : m = Mode.RGB ∨ m = Mode.L
    · rw [if_pos hm]
      rcases hm with hR | hL
      · subst hR
        exact ⟨Or.inr rfl, rfl⟩
      · subst hL
        exact ⟨Or.inl rfl, rfl⟩
    · rw [if_neg hm]
      exact ⟨Or.inr rfl, rfl⟩
  case generic.raster m w h =>
    subst hok
    unfold convertIfNeeded
    by_cases hm : m = Mode.RGB ∨ m = Mode.L
    · rw [if_pos hm]
      rcases hm with hR | hL
      · subst hR
        exact ⟨Or.inr rfl, rfl⟩
      · subst hL
        exact ⟨Or.inl rfl, rfl⟩
    · rw [if_neg hm]
      exact ⟨Or.inr rfl, rfl⟩

/-- C4 witness: a CMYK PNG is coerced to `RGB` at 8 bits. -/
theorem c4_witness :
    process_uploaded_file "x.png" (FileContent.raster Mode.CMYK 2 2) =
      Except.ok { mode := Mode.RGB, width := 2, height := 2, pixels := [] } ∧
    (Mode.RGB = Mode.L ∨ Mode.RGB = Mode.RGB) ∧ bitsPerChannel Mode.RGB = 8 := by
  refine ⟨rfl, ?_⟩
  exact c4_mode_invariant_amended "x.png" (FileContent.raster Mode.CMYK 2 2)
    { mode := Mode.RGB, width := 2, height := 2, pixels := [] }
    rfl (by intro dt w h M hc; cases hc)

/-- C5 counterexample: an uploaded `.bmp` — an extension outside the
accepted set — does not fail with any unsupported-format error: the
open-ended `else` branch decodes it, and a PIL-decodable payload
succeeds outright. -/
theorem c5_counterexample :
    dispatch "scan.bmp" = Branch.generic ∧
    process_uploaded_file "scan.bmp" (FileContent.raster Mode.RGB 4 4) =
      Except.ok { mode := Mode.RGB, width := 4, height := 4, pixels := [] } :=
  ⟨by decide, rfl⟩

/-- C5 (amended): there is no distinguished `UnsupportedFormat` error:
every extension outside `{dcm, dicom, tif, tiff}` falls through to the
generic branch, where a PIL-decodable payload is normalized and
returned, and any other payload fails with the wrapped decode error of
the outer `except` (so no unhandled fault escapes, but a `.txt` fails
as a decode failure, not as an unrecognized extension). -/
theorem c5_unknown_extension_falls_through (name : String) (c : FileContent)
    (hgen : dispatch name = Branch.generic) :
    process_uploaded_file name c =
      match c with
      | FileContent.raster m w h =>
        Except.ok { mode := convertIfNeeded m, width := w, height := h, pixels := [] }
      | _ => Except.error "Error processing uploaded file: cannot identify image file" := by
  unfold process_uploaded_file
  rw [hgen]

/-- C5 witness: `notes.txt` is dispatched to the generic branch and its
non-image payload fails with the wrapped decode error. -/
theorem c5_witness :
    dispatch "notes.txt" = Branch.generic ∧
    process_uploaded_file "notes.txt" FileContent.garbage =
      Except.error "Error processing uploaded file: cannot identify image file" :=
  ⟨by decide, c5_unknown_extension_falls_through "notes.txt" FileContent.garbage (by decide)⟩

end MedicalImaging
